import Mathlib

/-!
Formal model of the FlagVault feature-flag client (flagvault-sdk, v1.2.0):
the caching, bulk-prefetch, background-refresh and percentage-rollout engine
described in the repository's specification, together with proofs of its
stated properties.  The Python implementation module is not present in the
sources (only its package re-export, tests and examples are), so every
definition below is modelled from the specification, with the test suite
pinning concrete details such as error messages and prefix-based
environment detection.
-/

namespace FlagVault

/-- Modelled from the spec: a flag definition as fetched by the bulk
list-all-flags operation (the implementation module `flagvault_sdk.py` is
absent): key, enabled bit, optional display name, optional rollout
percentage (0-100) and optional rollout seed. -/
structure FlagDefinition where
  key : String
  isEnabled : Bool
  name : Option String := none
  rolloutPercentage : Option Nat := none
  rolloutSeed : Option String := none
deriving DecidableEq

/-- Modelled from the spec: a cache entry owned by the Cache Store — a
boolean decision value, a creation timestamp and an expiry timestamp
(creation + configured time-to-live).  Time is modelled as a natural
number of seconds. -/
structure CacheEntry where
  value : Bool
  createdAt : Nat
  expiresAt : Nat
deriving DecidableEq

/-- Modelled from the spec: the rollout evaluator.  The stable hash over
the concatenation of flag key, seed and subject identifier is abstracted as
a function parameter, since the implementation module holding the concrete
hash is absent; every theorem below holds for an arbitrary hash.  When no
subject identifier is supplied the implementation substitutes freshly
generated random bytes, modelled here by the explicit `randomBytes`
argument. -/
def decideRollout (hash : String → Nat) (flagKey : String) (d : FlagDefinition)
    (subject : Option String) (randomBytes : String) : Bool :=
  if d.isEnabled = false then false
  else
    match d.rolloutPercentage, d.rolloutSeed with
    | some pct, some seed =>
        let ident := subject.getD randomBytes
        decide (hash (flagKey ++ seed ++ ident) % 100 < pct)
    | _, _ => d.isEnabled

/-- The rollout bucket: the stable hash mapped into [0, 100) via modulo. -/
def rolloutBucket (hash : String → Nat) (flagKey seed ident : String) : Nat :=
  hash (flagKey ++ seed ++ ident) % 100

/-- C4: for every flag key and every supplied subject identifier, two runs
of the rollout evaluation of the same (key, subject) pair against the same
unchanged definition return the same boolean, whatever random bytes each
run would otherwise have drawn: the decision is a deterministic function of
flag key, seed and subject identifier. -/
theorem rollout_deterministic_for_supplied_subject (hash : String → Nat)
    (k : String) (d : FlagDefinition) (s : String) (r1 r2 : String) :
    decideRollout hash k d (some s) r1 = decideRollout hash k d (some s) r2 := by
  simp [decideRollout]

/-- C5: rollout evaluation of an enabled definition with percentage 0
returns false and with percentage 100 returns true, for every subject
identifier and every seed; the bucket always lies below 100. -/
theorem rollout_zero_false_hundred_true (hash : String → Nat) (k seed : String)
    (subject : Option String) (r : String) (d0 d100 : FlagDefinition)
    (h0e : d0.isEnabled = true) (h0p : d0.rolloutPercentage = some 0)
    (h0s : d0.rolloutSeed = some seed)
    (h1e : d100.isEnabled = true) (h1p : d100.rolloutPercentage = some 100)
    (h1s : d100.rolloutSeed = some seed) :
    decideRollout hash k d0 subject r = false ∧
    decideRollout hash k d100 subject r = true ∧
    rolloutBucket hash k seed (subject.getD r) < 100 := by
  refine ⟨?_, ?_, ?_⟩
  · simp [decideRollout, h0e, h0p, h0s]
  · simp [decideRollout, h1e, h1p, h1s]
    exact Nat.mod_lt _ (by omega)
  · exact Nat.mod_lt _ (by omega)

/-- Witness for C5 at a concrete enabled definition with seed "seed123". -/
theorem rollout_zero_false_hundred_true_witness :
    decideRollout String.length "zero-rollout"
      ⟨"zero-rollout", true, some "Zero Rollout", some 0, some "seed123"⟩
      (some "user-1") "rnd" = false ∧
    decideRollout String.length "full-rollout"
      ⟨"full-rollout", true, some "Full Rollout", some 100, some "seed123"⟩
      (some "user-1") "rnd" = true ∧
    rolloutBucket String.length "zero-rollout" "seed123" "user-1" < 100 := by
  refine ⟨?_, ?_, ?_⟩
  · exact (rollout_zero_false_hundred_true String.length "zero-rollout" "seed123"
      (some "user-1") "rnd"
      ⟨"zero-rollout", true, some "Zero Rollout", some 0, some "seed123"⟩
      ⟨"full-rollout", true, some "Full Rollout", some 100, some "seed123"⟩
      rfl rfl rfl rfl rfl rfl).1
  · exact (rollout_zero_false_hundred_true String.length "full-rollout" "seed123"
      (some "user-1") "rnd"
      ⟨"zero-rollout", true, some "Zero Rollout", some 0, some "seed123"⟩
      ⟨"full-rollout", true, some "Full Rollout", some 100, some "seed123"⟩
      rfl rfl rfl rfl rfl rfl).2.1
  · exact (rollout_zero_false_hundred_true String.length "zero-rollout" "seed123"
      (some "user-1") "rnd"
      ⟨"zero-rollout", true, some "Zero Rollout", some 0, some "seed123"⟩
      ⟨"full-rollout", true, some "Full Rollout", some 100, some "seed123"⟩
      rfl rfl rfl rfl rfl rfl).2.2

/-- Modelled from the spec: the Cache Store's entry map, an association
list from cache key to entry (the implementation module is absent; the
spec describes a bounded mapping with FIFO-by-creation-time eviction). -/
abbrev Cache := List (String × CacheEntry)

/-- Modelled from the spec: entry construction with expiry = creation +
configured time-to-live. -/
def mkEntry (v : Bool) (now ttl : Nat) : CacheEntry :=
  ⟨v, now, now + ttl⟩

/-- Modelled from the spec: membership test for a cache key. -/
def hasKey (cache : Cache) (k : String) : Bool :=
  cache.any (fun p => p.1 == k)

/-- Modelled from the spec: raw lookup of a cache key (no expiry check),
returning the first entry stored under the key. -/
def cacheLookup : Cache → String → Option CacheEntry
  | [], _ => none
  | p :: rest, k => if p.1 == k then some p.2 else cacheLookup rest k

/-- Modelled from the spec: eviction of the single entry with the earliest
creation time (FIFO by creation time, not by last access, and with no
regard to expiry).  Removes the first entry whose creation time is minimal. -/
def evictOldest : Cache → Cache
  | [] => []
  | p :: rest =>
      if rest.all (fun q => decide (p.2.createdAt ≤ q.2.createdAt)) then rest
      else p :: evictOldest rest

/-- Modelled from the spec: `put(key, value, ttl)` of the Cache Store —
replace in place when the key is present; otherwise, when inserting a
brand-new key would exceed the configured maximum size, evict the
oldest-created entry first, then insert. -/
def cachePut (maxSize : Nat) (cache : Cache) (k : String) (v : Bool)
    (now ttl : Nat) : Cache :=
  if hasKey cache k then
    cache.map (fun p => if p.1 == k then (k, mkEntry v now ttl) else p)
  else
    let pruned := if maxSize ≤ cache.length then evictOldest cache else cache
    (k, mkEntry v now ttl) :: pruned

/-- An insertion request against the Cache Store. -/
structure PutOp where
  key : String
  value : Bool
  now : Nat
  ttl : Nat
deriving DecidableEq

/-- A sequence of insertions applied in order. -/
def cachePutAll (maxSize : Nat) (cache : Cache) (ops : List PutOp) : Cache :=
  ops.foldl (fun c op => cachePut maxSize c op.key op.value op.now op.ttl) cache

theorem evictOldest_length (cache : Cache) (h : cache ≠ []) :
    (evictOldest cache).length = cache.length - 1 := by
  induction cache with
  | nil => exact absurd rfl h
  | cons p rest ih =>
      by_cases hall : rest.all (fun q => decide (p.2.createdAt ≤ q.2.createdAt)) = true
      · simp [evictOldest, hall]
      · have hrest : rest ≠ [] := by
          intro hnil
          subst hnil
          simp at hall
        have hlen : 1 ≤ rest.length := by
          cases rest with
          | nil => exact absurd rfl hrest
          | cons a b => simp
        rw [show evictOldest (p :: rest)
              = if rest.all (fun q => decide (p.2.createdAt ≤ q.2.createdAt)) then rest
                else p :: evictOldest rest from rfl,
            if_neg hall]
        simp only [List.length_cons, ih hrest]
        omega

theorem evictOldest_removes_min (cache : Cache) (h : cache ≠ []) :
    ∃ l1 e l2, cache = l1 ++ e :: l2 ∧ evictOldest cache = l1 ++ l2 ∧
      ∀ q ∈ cache, e.2.createdAt ≤ q.2.createdAt := by
  induction cache with
  | nil => exact absurd rfl h
  | cons p rest ih =>
      by_cases hall : rest.all (fun q => decide (p.2.createdAt ≤ q.2.createdAt)) = true
      · refine ⟨[], p, rest, by simp, by simp [evictOldest, hall], ?_⟩
        intro q hq
        rcases List.mem_cons.mp hq with hq | hq
        · subst hq; exact Nat.le_refl _
        · have := List.all_eq_true.mp hall q hq
          exact of_decide_eq_true this
      · have hrest : rest ≠ [] := by
          intro hnil
          subst hnil
          simp at hall
        obtain ⟨l1, e, l2, hsplit, hev, hmin⟩ := ih hrest
        have hqlt : ∃ q ∈ rest, q.2.createdAt < p.2.createdAt := by
          rcases List.all_eq_true.not.mp hall with hx
          push_neg at hx
          obtain ⟨q, hq, hqd⟩ := hx
          simp at hqd
          exact ⟨q, hq, by omega⟩
        obtain ⟨q0, hq0, hq0lt⟩ := hqlt
        refine ⟨p :: l1, e, l2, by simp [hsplit], ?_, ?_⟩
        · simp [evictOldest, hall, hev]
        · intro q hq
          rcases List.mem_cons.mp hq with hq | hq
          · subst hq
            exact Nat.le_of_lt (Nat.lt_of_le_of_lt (hmin q0 hq0) hq0lt)
          · exact hmin q hq

theorem cachePut_length_le (maxSize : Nat) (cache : Cache) (k : String)
    (v : Bool) (now ttl : Nat) (hmax : 1 ≤ maxSize)
    (hlen : cache.length ≤ maxSize) :
    (cachePut maxSize cache k v now ttl).length ≤ maxSize := by
  unfold cachePut
  by_cases hk : hasKey cache k = true
  · simp [hk, hlen]
  · simp only [hk, if_false, Bool.false_eq_true]
    by_cases hfull : maxSize ≤ cache.length
    · have hne : cache ≠ [] := by
        intro hnil
        subst hnil
        simp at hfull
        omega
      simp only [hfull, if_true, List.length_cons, evictOldest_length cache hne]
      have : 1 ≤ cache.length := by
        cases cache with
        | nil => exact absurd rfl hne
        | cons a b => simp
      omega
    · simp only [hfull, if_false, List.length_cons]
      omega

theorem cachePutAll_length_le (maxSize : Nat) (ops : List PutOp) (cache : Cache)
    (hmax : 1 ≤ maxSize) (hlen : cache.length ≤ maxSize) :
    (cachePutAll maxSize cache ops).length ≤ maxSize := by
  induction ops generalizing cache with
  | nil => exact hlen
  | cons op rest ih =>
      exact ih _ (cachePut_length_le maxSize cache op.key op.value op.now op.ttl hmax hlen)

/-- C3: after any sequence of insertions into an initially empty Cache
Store the entry count never exceeds the configured maximum size, and
inserting a brand-new key when the store is at capacity evicts exactly the
single entry with the earliest creation time — whatever its expiry — and
leaves the count at the maximum. -/
theorem cache_bounded_and_fifo_eviction (maxSize : Nat) (ops : List PutOp)
    (cache : Cache) (k : String) (v : Bool) (now ttl : Nat)
    (hmax : 1 ≤ maxSize) (hfull : cache.length = maxSize)
    (hnew : hasKey cache k = false) :
    (cachePutAll maxSize [] ops).length ≤ maxSize ∧
    ∃ l1 e l2, cache = l1 ++ e :: l2 ∧
      cachePut maxSize cache k v now ttl = (k, mkEntry v now ttl) :: (l1 ++ l2) ∧
      (∀ q ∈ cache, e.2.createdAt ≤ q.2.createdAt) ∧
      (cachePut maxSize cache k v now ttl).length = maxSize := by
  constructor
  · exact cachePutAll_length_le maxSize ops [] hmax (by simp)
  · have hne : cache ≠ [] := by
      intro hnil
      subst hnil
      simp at hfull
      omega
    obtain ⟨l1, e, l2, hsplit, hev, hmin⟩ := evictOldest_removes_min cache hne
    refine ⟨l1, e, l2, hsplit, ?_, hmin, ?_⟩
    · unfold cachePut
      simp only [hnew, Bool.false_eq_true, if_false, hfull, Nat.le_refl, if_true, hev]
    · unfold cachePut
      simp only [hnew, Bool.false_eq_true, if_false, hfull, Nat.le_refl, if_true,
        List.length_cons, evictOldest_length cache hne, hfull]
      omega

/-- Witness for C3: max size 2, a full store whose older entry ("b",
created at 3, unexpired) is evicted by inserting the brand-new key "c". -/
theorem cache_bounded_and_fifo_eviction_witness :
    (cachePutAll 2 []
        [⟨"f1", true, 0, 5⟩, ⟨"f2", true, 1, 5⟩, ⟨"f3", true, 2, 5⟩]).length ≤ 2 ∧
    ∃ l1 e l2, [("a", CacheEntry.mk true 5 1000), ("b", CacheEntry.mk false 3 1000)]
        = l1 ++ e :: l2 ∧
      cachePut 2 [("a", CacheEntry.mk true 5 1000), ("b", CacheEntry.mk false 3 1000)]
          "c" true 7 10 = ("c", mkEntry true 7 10) :: (l1 ++ l2) ∧
      (∀ q ∈ [("a", CacheEntry.mk true 5 1000), ("b", CacheEntry.mk false 3 1000)],
        e.2.createdAt ≤ q.2.createdAt) ∧
      (cachePut 2 [("a", CacheEntry.mk true 5 1000), ("b", CacheEntry.mk false 3 1000)]
          "c" true 7 10).length = 2 :=
  cache_bounded_and_fifo_eviction 2
    [⟨"f1", true, 0, 5⟩, ⟨"f2", true, 1, 5⟩, ⟨"f3", true, 2, 5⟩]
    [("a", CacheEntry.mk true 5 1000), ("b", CacheEntry.mk false 3 1000)]
    "c" true 7 10 (by omega) (by simp) (by decide)

/-- Modelled from the spec: the configuration surface the core consumes
(cache enabled, time-to-live in seconds, maximum entry count, background
refresh interval). -/
structure Config where
  cacheEnabled : Bool
  cacheTtl : Nat
  cacheMaxSize : Nat
  cacheRefreshInterval : Nat
deriving DecidableEq

/-- Modelled from the spec: the bulk snapshot — the last full
flag-definition list fetched from the service, with one creation/expiry
timestamp pair for the whole snapshot. -/
structure BulkSnapshot where
  flags : List FlagDefinition
  createdAt : Nat
  expiresAt : Nat
deriving DecidableEq

/-- Modelled from the spec: the mutable state the Evaluation Façade and the
Background Refresher share — the Cache Store's entry map, the optional bulk
snapshot, the cumulative hit and miss counters, and the refresher's
in-progress flag. -/
structure SdkState where
  cache : Cache
  bulk : Option BulkSnapshot
  hits : Nat
  misses : Nat
  refreshInProgress : Bool
deriving DecidableEq

/-- The empty initial state of a freshly constructed client. -/
def initialState : SdkState :=
  ⟨[], none, 0, 0, false⟩

/-- Modelled from the spec: the distinct input-validation error raised
synchronously by isEnabled, one constructor per rule in the spec. -/
inductive ValidationError
  | missingFlagKey
  | bothContextAndTarget
  | targetTooLong
  | targetInvalidChars
deriving DecidableEq

/-- A character admissible in a target identifier: alphanumeric, dash or
underscore. -/
def isValidTargetChar (c : Char) : Bool :=
  c.isAlphanum || c == '-' || c == '_'

/-- Modelled from the spec: synchronous input validation of isEnabled —
the flag key must be present and non-empty; at most one of the free-form
context and the structured target identifier may be supplied; a target
identifier must be at most 128 characters of alphanumerics plus dash and
underscore (the free-form context is not character-validated). -/
def validateInputs (flagKey : Option String) (context : Option String)
    (targetId : Option String) : Option ValidationError :=
  match flagKey with
  | none => some .missingFlagKey
  | some fk =>
      if fk.isEmpty then some .missingFlagKey
      else if context.isSome && targetId.isSome then some .bothContextAndTarget
      else
        match targetId with
        | some t =>
            if 128 < t.length then some .targetTooLong
            else if t.data.all isValidTargetChar then none
            else some .targetInvalidChars
        | none => none

/-- The spec's validity condition on isEnabled inputs, written as a plain
predicate to compare against the validator from the modelled code path. -/
def validInputSpec (flagKey : Option String) (context : Option String)
    (targetId : Option String) : Prop :=
  (∃ fk, flagKey = some fk ∧ fk ≠ "") ∧
  ¬(context.isSome = true ∧ targetId.isSome = true) ∧
  ∀ t, targetId = some t → t.length ≤ 128 ∧ ∀ c ∈ t.data, isValidTargetChar c = true

/-- Modelled from the spec: the error outcomes of the remote single-flag
fetch as the façade distinguishes them — authentication failure (401/403),
network failure (connection error or timeout), malformed/invalid-JSON
response body, or any other non-2xx status. -/
inductive FetchError
  | authFailure
  | networkFailure
  | malformedBody
  | apiFailure (status : Nat)
deriving DecidableEq

/-- The outcome of one remote single-flag fetch: the boolean enabled field
of a successful 2xx response (absent field already mapped to false), or an
error. -/
abbrev FetchOutcome := Except FetchError Bool

/-- Modelled from the spec: the subject identifier actually used — the
structured target identifier when supplied, else the free-form context
string (which the client converts to a target identifier). -/
def subjectOf (context : Option String) (targetId : Option String) : Option String :=
  match targetId with
  | some t => some t
  | none => context

/-- Modelled from the spec: the composite cache key — flag key alone when
evaluation has no targeting context, else flag key and subject identifier
joined by a colon. -/
def cacheKeyOf (flagKey : String) (subject : Option String) : String :=
  match subject with
  | some s => flagKey ++ ":" ++ s
  | none => flagKey

/-- Modelled from the spec: Cache Store read with lazy expiry — a hit
returns the entry's value only while the current time has not passed the
expiry timestamp. -/
def freshLookup (cache : Cache) (k : String) (now : Nat) : Option Bool :=
  match cacheLookup cache k with
  | some e => if e.expiresAt < now then none else some e.value
  | none => none

/-- Modelled from the spec: Bulk Flag Table lookup — a miss when no
snapshot exists, the snapshot has expired, or the key is absent. -/
def bulkLookup (bulk : Option BulkSnapshot) (k : String) (now : Nat) :
    Option FlagDefinition :=
  match bulk with
  | none => none
  | some snap =>
      if snap.expiresAt < now then none
      else snap.flags.find? (fun d => d.key == k)

/-- The full observable outcome of one isEnabled call: the returned value
(or the synchronously raised validation error), the state after the call,
and how many remote single-flag fetches the call performed. -/
structure EvalResult where
  result : Except ValidationError Bool
  state : SdkState
  networkCalls : Nat

/-- Modelled from the spec: the Evaluation Façade's `isEnabled` — validate
synchronously before any I/O; then look up the per-key-and-subject cache
entry, then the Bulk Flag Table (running the Rollout Evaluator and caching
the result), then fall back to the remote single-flag fetch, whose outcome
for this call is the explicit `fetch` argument; any fetch error yields the
caller-supplied default with no cache write. -/
def isEnabled (cfg : Config) (hash : String → Nat) (st : SdkState) (now : Nat)
    (flagKey : Option String) (defaultValue : Bool) (context : Option String)
    (targetId : Option String) (randomBytes : String) (fetch : FetchOutcome) :
    EvalResult :=
  match validateInputs flagKey context targetId with
  | some e => ⟨.error e, st, 0⟩
  | none =>
      let k := flagKey.getD ""
      let subject := subjectOf context targetId
      let ckey := cacheKeyOf k subject
      let cacheHit : Option Bool :=
        if cfg.cacheEnabled then freshLookup st.cache ckey now else none
      match cacheHit with
      | some v => ⟨.ok v, { st with hits := st.hits + 1 }, 0⟩
      | none =>
          let st1 := if cfg.cacheEnabled then { st with misses := st.misses + 1 } else st
          match bulkLookup st.bulk k now with
          | some d =>
              let v := decideRollout hash k d subject randomBytes
              let st2 :=
                if cfg.cacheEnabled then
                  { st1 with cache := cachePut cfg.cacheMaxSize st1.cache ckey v now cfg.cacheTtl }
                else st1
              ⟨.ok v, st2, 0⟩
          | none =>
              match fetch with
              | .ok b =>
                  let st2 :=
                    if cfg.cacheEnabled then
                      { st1 with cache := cachePut cfg.cacheMaxSize st1.cache ckey b now cfg.cacheTtl }
                    else st1
                  ⟨.ok b, st2, 1⟩
              | .error _ => ⟨.ok defaultValue, st1, 1⟩

/-- Modelled from the spec: the default configuration — cache enabled,
time-to-live 300 seconds, maximum 1000 entries, background refresh
disabled. -/
def defaultConfig : Config :=
  ⟨true, 300, 1000, 0⟩

/-- C1: when the per-key cache misses and the bulk table misses, any error
outcome of the remote single-flag fetch (authentication, network,
malformed body, or other non-2xx status) makes isEnabled return the
caller-supplied default without an exception, and write no cache entry:
the cache and bulk snapshot are unchanged, and a subsequent call for the
same key performs a remote fetch again. -/
theorem isEnabled_fail_open (cfg : Config) (hash : String → Nat) (st : SdkState)
    (now : Nat) (flagKey : Option String) (dv : Bool) (ctx tid : Option String)
    (rb : String) (err : FetchError) (dv2 : Bool) (rb2 : String)
    (fetch2 : FetchOutcome)
    (hvalid : validateInputs flagKey ctx tid = none)
    (hmiss : freshLookup st.cache
        (cacheKeyOf (flagKey.getD "") (subjectOf ctx tid)) now = none)
    (hbulk : bulkLookup st.bulk (flagKey.getD "") now = none) :
    (isEnabled cfg hash st now flagKey dv ctx tid rb (.error err)).result = .ok dv ∧
    (isEnabled cfg hash st now flagKey dv ctx tid rb (.error err)).state.cache = st.cache ∧
    (isEnabled cfg hash st now flagKey dv ctx tid rb (.error err)).state.bulk = st.bulk ∧
    (isEnabled cfg hash st now flagKey dv ctx tid rb (.error err)).networkCalls = 1 ∧
    (isEnabled cfg hash (isEnabled cfg hash st now flagKey dv ctx tid rb (.error err)).state
        now flagKey dv2 ctx tid rb2 fetch2).networkCalls = 1 := by
  cases hc : cfg.cacheEnabled <;> cases fetch2 <;>
    simp [isEnabled, hvalid, hc, hmiss, hbulk]

/-- Witness for C1: the service reports HTTP 500 for flag "test-flag"
against a fresh client; the call returns the default true, leaves the
state empty, and the next call fetches again. -/
theorem isEnabled_fail_open_witness :
    (isEnabled defaultConfig String.length initialState 0 (some "test-flag") true
        none none "rnd" (.error (.apiFailure 500))).result = .ok true ∧
    (isEnabled defaultConfig String.length initialState 0 (some "test-flag") true
        none none "rnd" (.error (.apiFailure 500))).state.cache = initialState.cache ∧
    (isEnabled defaultConfig String.length initialState 0 (some "test-flag") true
        none none "rnd" (.error (.apiFailure 500))).state.bulk = initialState.bulk ∧
    (isEnabled defaultConfig String.length initialState 0 (some "test-flag") true
        none none "rnd" (.error (.apiFailure 500))).networkCalls = 1 ∧
    (isEnabled defaultConfig String.length
        (isEnabled defaultConfig String.length initialState 0 (some "test-flag") true
          none none "rnd" (.error (.apiFailure 500))).state
        0 (some "test-flag") false none none "rnd2" (.ok true)).networkCalls = 1 :=
  isEnabled_fail_open defaultConfig String.length initialState 0 (some "test-flag")
    true none none "rnd" (.apiFailure 500) false "rnd2" (.ok true)
    rfl rfl rfl

theorem validateInputs_none_iff (fk ctx tid : Option String) :
    validateInputs fk ctx tid = none ↔ validInputSpec fk ctx tid := by
  cases fk with
  | none => simp [validateInputs, validInputSpec]
  | some s =>
      by_cases hs : s = ""
      · subst hs
        simp [validateInputs, validInputSpec, show String.isEmpty "" = true by decide]
      · have hse : s.isEmpty = false := by
          rw [Bool.eq_false_iff]
          intro h
          exact hs ((String.isEmpty_iff s).mp h)
        cases tid with
        | none =>
            cases ctx with
            | none => simp [validateInputs, validInputSpec, hse, hs]
            | some c => simp [validateInputs, validInputSpec, hse, hs]
        | some t =>
            cases ctx with
            | some c => simp [validateInputs, validInputSpec, hse]
            | none =>
                by_cases hlen : 128 < t.length
                · constructor
                  · intro h
                    simp [validateInputs, hse, hlen] at h
                  · intro h
                    exact absurd (h.2.2 t rfl).1 (by omega)
                · by_cases hchars : t.data.all isValidTargetChar = true
                  · have hall := List.all_eq_true.mp hchars
                    constructor
                    · intro _
                      exact ⟨⟨s, rfl, hs⟩, by simp, fun t2 ht2 => by
                        cases ht2
                        exact ⟨by omega, fun c hc => hall c hc⟩⟩
                    · intro _
                      simp [validateInputs, hse, hlen, hchars]
                  · constructor
                    · intro h
                      simp [validateInputs, hse, hlen, hchars] at h
                    · intro h
                      exact absurd (List.all_eq_true.mpr ((h.2.2 t rfl).2)) hchars

/-- C7: isEnabled validates its inputs synchronously before any network
I/O — the validator accepts exactly the valid inputs (non-empty key, not
both context and target identifier, target identifier at most 128
admissible characters), and on any validation error isEnabled raises that
distinct error with the state untouched and zero remote fetches. -/
theorem validation_exact_and_preempts_io (fk ctx tid : Option String)
    (cfg : Config) (hash : String → Nat) (st : SdkState) (now : Nat)
    (dv : Bool) (rb : String) (fetch : FetchOutcome) :
    (validateInputs fk ctx tid = none ↔ validInputSpec fk ctx tid) ∧
    (∀ e, validateInputs fk ctx tid = some e →
      isEnabled cfg hash st now fk dv ctx tid rb fetch = ⟨.error e, st, 0⟩) := by
  refine ⟨validateInputs_none_iff fk ctx tid, ?_⟩
  intro e he
  simp [isEnabled, he]

/-- Witness for C7: the validator accepts the valid target identifier
"user-123_valid" and rejects "user@invalid", on which isEnabled raises the
invalid-characters error with the fresh state untouched and no remote
fetch. -/
theorem validation_exact_and_preempts_io_witness :
    (validateInputs (some "test-flag") none (some "user-123_valid") = none ↔
      validInputSpec (some "test-flag") none (some "user-123_valid")) ∧
    isEnabled defaultConfig String.length initialState 0 (some "test-flag")
        false none (some "user@invalid") "rnd" (.ok true)
      = ⟨.error .targetInvalidChars, initialState, 0⟩ :=
  ⟨(validation_exact_and_preempts_io (some "test-flag") none (some "user-123_valid")
      defaultConfig String.length initialState 0 false "rnd" (.ok true)).1,
   (validation_exact_and_preempts_io (some "test-flag") none (some "user@invalid")
      defaultConfig String.length initialState 0 false "rnd" (.ok true)).2
      .targetInvalidChars (by decide)⟩

/-- Modelled from the spec: the fixed per-entry overhead the approximate
memory-footprint estimate adds to each stored key's length. -/
def entryOverhead : Nat := 64

/-- Modelled from the spec: the read-only statistics snapshot — entry
count, cumulative hits and misses, derived hit rate (0 when there has been
no access), count of expired-but-unevicted entries, and the approximate
memory footprint. -/
structure CacheStats where
  size : Nat
  hits : Nat
  misses : Nat
  hitRate : ℚ
  expiredEntries : Nat
  memoryUsage : Nat
deriving DecidableEq

/-- Modelled from the spec: `stats()` computed as a pure snapshot of the
current state at the given time. -/
def getCacheStats (st : SdkState) (now : Nat) : CacheStats :=
  ⟨st.cache.length, st.hits, st.misses,
   if st.hits + st.misses = 0 then 0
   else (st.hits : ℚ) / ((st.hits : ℚ) + (st.misses : ℚ)),
   (st.cache.filter (fun p => decide (p.2.expiresAt < now))).length,
   st.cache.foldl (fun acc p => acc + p.1.length + entryOverhead) 0⟩

/-- Modelled from the spec: `clear()` — removes all entries and resets both
the entry map and the bulk snapshot, without touching the cumulative
hit/miss statistics. -/
def clearCache (st : SdkState) : SdkState :=
  { st with cache := [], bulk := none }

/-- C8: clearCache empties the entry map (entry count 0) and resets the
bulk snapshot, while the hit count, miss count and derived hit rate
observable through getCacheStats are identical immediately before and
after the clear, for every state. -/
theorem clearCache_resets_entries_not_stats (st : SdkState) (now : Nat) :
    (getCacheStats (clearCache st) now).size = 0 ∧
    (clearCache st).bulk = none ∧
    (getCacheStats (clearCache st) now).hits = (getCacheStats st now).hits ∧
    (getCacheStats (clearCache st) now).misses = (getCacheStats st now).misses ∧
    (getCacheStats (clearCache st) now).hitRate = (getCacheStats st now).hitRate := by
  simp [getCacheStats, clearCache]

/-- Modelled from the spec: the error taxonomy the client raises to
callers — authentication, network and API/service errors, each carrying a
message (the validation error is the separate synchronous kind above). -/
inductive SdkError
  | authentication (msg : String)
  | network (msg : String)
  | api (msg : String)
deriving DecidableEq

/-- The kind of a raised error, forgetting its message. -/
inductive ErrorKind
  | authenticationKind
  | networkKind
  | apiKind
deriving DecidableEq

/-- Projection from an error to its kind. -/
def errorKindOf : SdkError → ErrorKind
  | .authentication _ => .authenticationKind
  | .network _ => .networkKind
  | .api _ => .apiKind

/-- Modelled from the spec: the outcome of one bulk list-all-flags HTTP
exchange as the transport reports it — a successful 2xx flag list, a
timeout, a connection failure, or a non-2xx status. -/
inductive BulkFetchOutcome
  | ok (flags : List FlagDefinition)
  | timeout
  | connectionFailure
  | httpError (status : Nat)
deriving DecidableEq

/-- Modelled from the spec: the fail-loud error translation of the bulk
fetch — timeouts and connection failures become the network kind;
unauthorized/forbidden statuses become the authentication kind; any other
non-2xx status becomes the API kind (messages as pinned by the tests). -/
def bulkFetchResult (outcome : BulkFetchOutcome) :
    Except SdkError (List FlagDefinition) :=
  match outcome with
  | .ok flags => .ok flags
  | .timeout => .error (.network "Request timed out")
  | .connectionFailure => .error (.network "Failed to connect to API")
  | .httpError status =>
      if status == 401 || status == 403 then
        .error (.authentication "Invalid API key")
      else .error (.api "Failed to fetch flags")

/-- Modelled from the spec: whether a current bulk snapshot exists and has
not expired. -/
def bulkIsFresh (bulk : Option BulkSnapshot) (now : Nat) : Bool :=
  match bulk with
  | some snap => decide (now ≤ snap.expiresAt)
  | none => false

/-- Modelled from the spec: `getAllFlags` — answer from a fresh snapshot
without a network call, else prefetch: on success atomically replace the
snapshot, on failure propagate the translated error. -/
def getAllFlags (cfg : Config) (now : Nat) (st : SdkState)
    (outcome : BulkFetchOutcome) :
    Except SdkError (SdkState × List FlagDefinition) :=
  if bulkIsFresh st.bulk now then
    .ok (st, (st.bulk.map BulkSnapshot.flags).getD [])
  else
    match bulkFetchResult outcome with
    | .error e => .error e
    | .ok flags => .ok ({ st with bulk := some ⟨flags, now, now + cfg.cacheTtl⟩ }, flags)

/-- Modelled from the spec: `preloadFlags` — the same prefetch, keeping
only the updated state. -/
def preloadFlags (cfg : Config) (now : Nat) (st : SdkState)
    (outcome : BulkFetchOutcome) : Except SdkError SdkState :=
  match getAllFlags cfg now st outcome with
  | .error e => .error e
  | .ok p => .ok p.1

/-- C2 counterexample: a non-2xx status of 401 on the bulk fetch
propagates as the authentication kind, not the API/service kind the claim
names for every non-2xx status. -/
theorem bulk_401_is_auth_kind_counterexample :
    getAllFlags defaultConfig 0 initialState (.httpError 401)
      = .error (.authentication "Invalid API key") ∧
    errorKindOf (.authentication "Invalid API key") ≠ ErrorKind.apiKind := by
  exact ⟨rfl, by decide⟩

/-- C2 (amended): with no fresh snapshot, every error outcome of the bulk
fetch makes getAllFlags and preloadFlags propagate an error rather than
return a default, with distinguishable kinds — timeouts and connection
failures raise the network kind, a non-2xx status other than 401/403
raises the API kind, and 401/403 raise the authentication kind. -/
theorem bulk_errors_propagate_distinguishable (cfg : Config) (now : Nat)
    (st : SdkState) (status : Nat)
    (hstale : bulkIsFresh st.bulk now = false)
    (hstatus : status ≠ 401 ∧ status ≠ 403) :
    getAllFlags cfg now st .timeout = .error (.network "Request timed out") ∧
    getAllFlags cfg now st .connectionFailure
      = .error (.network "Failed to connect to API") ∧
    getAllFlags cfg now st (.httpError status) = .error (.api "Failed to fetch flags") ∧
    getAllFlags cfg now st (.httpError 401)
      = .error (.authentication "Invalid API key") ∧
    getAllFlags cfg now st (.httpError 403)
      = .error (.authentication "Invalid API key") ∧
    preloadFlags cfg now st .timeout = .error (.network "Request timed out") ∧
    preloadFlags cfg now st .connectionFailure
      = .error (.network "Failed to connect to API") ∧
    preloadFlags cfg now st (.httpError status)
      = .error (.api "Failed to fetch flags") ∧
    preloadFlags cfg now st (.httpError 401)
      = .error (.authentication "Invalid API key") ∧
    preloadFlags cfg now st (.httpError 403)
      = .error (.authentication "Invalid API key") := by
  have hs : (status == 401 || status == 403) = false := by
    simp [hstatus.1, hstatus.2]
  simp [getAllFlags, preloadFlags, bulkFetchResult, hstale, hs]

/-- Witness for C2 (amended) at status 500 against a fresh client. -/
theorem bulk_errors_propagate_distinguishable_witness :
    getAllFlags defaultConfig 0 initialState .timeout
      = .error (.network "Request timed out") ∧
    getAllFlags defaultConfig 0 initialState .connectionFailure
      = .error (.network "Failed to connect to API") ∧
    getAllFlags defaultConfig 0 initialState (.httpError 500)
      = .error (.api "Failed to fetch flags") ∧
    getAllFlags defaultConfig 0 initialState (.httpError 401)
      = .error (.authentication "Invalid API key") ∧
    getAllFlags defaultConfig 0 initialState (.httpError 403)
      = .error (.authentication "Invalid API key") ∧
    preloadFlags defaultConfig 0 initialState .timeout
      = .error (.network "Request timed out") ∧
    preloadFlags defaultConfig 0 initialState .connectionFailure
      = .error (.network "Failed to connect to API") ∧
    preloadFlags defaultConfig 0 initialState (.httpError 500)
      = .error (.api "Failed to fetch flags") ∧
    preloadFlags defaultConfig 0 initialState (.httpError 401)
      = .error (.authentication "Invalid API key") ∧
    preloadFlags defaultConfig 0 initialState (.httpError 403)
      = .error (.authentication "Invalid API key") :=
  bulk_errors_propagate_distinguishable defaultConfig 0 initialState 500
    rfl (by omega)

/-- Modelled from the spec: the refresh window — an entry is due for
proactive refresh when its remaining time-to-live is at most 30 seconds. -/
def refreshThresholdSeconds : Nat := 30

/-- Modelled from the spec: whether a cache key carries a subject
identifier (composite keys join flag key and subject with a colon);
per-subject entries are never proactively refreshed. -/
def hasSubjectKey (ckey : String) : Bool :=
  ckey.contains ':'

/-- Modelled from the spec: whether the Background Refresher refetches this
entry on the current cycle. -/
def dueForRefresh (now : Nat) (ckey : String) (e : CacheEntry) : Bool :=
  decide (e.expiresAt ≤ now + refreshThresholdSeconds) && !hasSubjectKey ckey

/-- Modelled from the spec: one entry's treatment during a refresh cycle —
a due entry whose refetch succeeds gets the new value with expiry extended
from the current time; a refetch failure leaves the entry untouched; an
entry not due is untouched. -/
def refreshEntry (ttl : Nat) (now : Nat) (fetch : String → FetchOutcome)
    (p : String × CacheEntry) : String × CacheEntry :=
  if dueForRefresh now p.1 p.2 then
    match fetch p.1 with
    | .ok b => (p.1, ⟨b, p.2.createdAt, now + ttl⟩)
    | .error _ => p
  else p

/-- Modelled from the spec: one full cycle of the Background Refresher over
the snapshot of current keys, clearing the in-progress flag on exit. -/
def refreshExpiredFlags (cfg : Config) (now : Nat) (fetch : String → FetchOutcome)
    (st : SdkState) : SdkState :=
  { st with
      cache := st.cache.map (refreshEntry cfg.cacheTtl now fetch),
      refreshInProgress := false }

theorem refreshEntry_fst (ttl now : Nat) (fetch : String → FetchOutcome)
    (p : String × CacheEntry) : (refreshEntry ttl now fetch p).1 = p.1 := by
  by_cases h : dueForRefresh now p.1 p.2 = true
  · simp only [refreshEntry, h, if_true]
    cases fetch p.1 <;> rfl
  · simp [refreshEntry, h]

theorem cacheLookup_map_refresh (ttl now : Nat) (fetch : String → FetchOutcome)
    (l : Cache) (k : String) :
    cacheLookup (l.map (refreshEntry ttl now fetch)) k
      = (cacheLookup l k).map (fun e => (refreshEntry ttl now fetch (k, e)).2) := by
  induction l with
  | nil => rfl
  | cons p rest ih =>
      by_cases hp : (p.1 == k) = true
      · have hpk : p.1 = k := by simpa using hp
        have hfp : ((refreshEntry ttl now fetch p).1 == k) = true := by
          rw [refreshEntry_fst]
          exact hp
        have hpair : p = (k, p.2) := by rw [← hpk]
        simp only [List.map_cons, cacheLookup, hfp, hp, if_true]
        rw [Option.map_some']
        conv_lhs => rw [hpair]
      · have hp2 : (p.1 == k) = false := by simpa using hp
        have hfp : ((refreshEntry ttl now fetch p).1 == k) = false := by
          rw [refreshEntry_fst]
          exact hp2
        simp only [List.map_cons, cacheLookup, hfp, hp2, Bool.false_eq_true, if_false]
        exact ih

/-- C9: during a refresh cycle, a key whose refetch fails keeps its cache
entry completely unchanged (present, same value and expiry), the cycle
still processes the remaining keys (a due key whose refetch succeeds gets
the new value with expiry extended from the current time), and the
in-progress flag is false after the cycle returns. -/
theorem refresh_failure_leaves_entry_and_continues (cfg : Config) (now : Nat)
    (fetch : String → FetchOutcome) (st : SdkState) (k : String) (e : CacheEntry)
    (err : FetchError)
    (hk : cacheLookup st.cache k = some e)
    (hfail : fetch k = .error err) :
    cacheLookup (refreshExpiredFlags cfg now fetch st).cache k = some e ∧
    (refreshExpiredFlags cfg now fetch st).refreshInProgress = false ∧
    (∀ k2 e2 b, cacheLookup st.cache k2 = some e2 → fetch k2 = .ok b →
      dueForRefresh now k2 e2 = true →
      cacheLookup (refreshExpiredFlags cfg now fetch st).cache k2
        = some ⟨b, e2.createdAt, now + cfg.cacheTtl⟩) := by
  refine ⟨?_, rfl, ?_⟩
  · have hmap := cacheLookup_map_refresh cfg.cacheTtl now fetch st.cache k
    rw [show (refreshExpiredFlags cfg now fetch st).cache
          = st.cache.map (refreshEntry cfg.cacheTtl now fetch) from rfl,
        hmap, hk, Option.map_some']
    simp [refreshEntry, hfail]
  · intro k2 e2 b hk2 hok hdue
    have hmap := cacheLookup_map_refresh cfg.cacheTtl now fetch st.cache k2
    rw [show (refreshExpiredFlags cfg now fetch st).cache
          = st.cache.map (refreshEntry cfg.cacheTtl now fetch) from rfl,
        hmap, hk2, Option.map_some']
    simp [refreshEntry, hdue, hok]

/-- Concrete refresh-cycle fixture: the refetch of "flag1" fails with HTTP
500 and every other key refetches successfully to false. -/
def fixtureFetch : String → FetchOutcome :=
  fun k => if k == "flag1" then .error (.apiFailure 500) else .ok false

/-- Concrete refresh-cycle fixture: two subject-free entries, both inside
the 30-second refresh window at time 50. -/
def fixtureState : SdkState :=
  ⟨[("flag1", ⟨true, 0, 60⟩), ("flag2", ⟨true, 0, 70⟩)], none, 0, 2, false⟩

/-- Witness for C9: against the fixture, "flag1" survives its failed
refetch unchanged, "flag2" is refreshed with expiry extended from time 50,
and the in-progress flag ends false. -/
theorem refresh_failure_leaves_entry_and_continues_witness :
    cacheLookup (refreshExpiredFlags defaultConfig 50 fixtureFetch fixtureState).cache
      "flag1" = some ⟨true, 0, 60⟩ ∧
    (refreshExpiredFlags defaultConfig 50 fixtureFetch fixtureState).refreshInProgress
      = false ∧
    (∀ k2 e2 b, cacheLookup fixtureState.cache k2 = some e2 →
      fixtureFetch k2 = .ok b → dueForRefresh 50 k2 e2 = true →
      cacheLookup (refreshExpiredFlags defaultConfig 50 fixtureFetch fixtureState).cache k2
        = some ⟨b, e2.createdAt, 50 + defaultConfig.cacheTtl⟩) :=
  refresh_failure_leaves_entry_and_continues defaultConfig 50 fixtureFetch
    fixtureState "flag1" ⟨true, 0, 60⟩ (.apiFailure 500) rfl rfl

/-- Modelled from the spec: the implementation module is absent and the
specification is silent on this surface; the constructor's environment
attribute is pinned by the repository's environment-detection test — an
API key starting with "test_" yields environment "test", one starting with
"live_" yields "production", and any other prefix falls back to
"production".  A five-character prefix check over the key's characters
models the Python startswith test. -/
def detectEnvironment (apiKey : String) : String :=
  if apiKey.data.take 5 = "test_".data then "test"
  else if apiKey.data.take 5 = "live_".data then "production"
  else "production"

/-- C10: constructing the SDK derives the environment from the API key's
prefix — "test_" yields "test", "live_" yields "production", and any
other prefix also falls back to "production". -/
theorem environment_detection_from_api_key (k1 k2 k3 : String)
    (h1 : k1.data.take 5 = "test_".data)
    (h2 : k2.data.take 5 = "live_".data)
    (h3 : k3.data.take 5 ≠ "test_".data) :
    detectEnvironment k1 = "test" ∧
    detectEnvironment k2 = "production" ∧
    detectEnvironment k3 = "production" := by
  refine ⟨by simp [detectEnvironment, h1], ?_, ?_⟩
  · have hne : k2.data.take 5 ≠ "test_".data := by
      rw [h2]
      decide
    simp [detectEnvironment, hne, h2]
  · by_cases hl : k3.data.take 5 = "live_".data
    · simp [detectEnvironment, h3, hl]
    · simp [detectEnvironment, h3, hl]

/-- Witness for C10 at the three API keys of the environment-detection
test. -/
theorem environment_detection_from_api_key_witness :
    detectEnvironment "test_test-key" = "test" ∧
    detectEnvironment "live_test-key" = "production" ∧
    detectEnvironment "unknown_test-key" = "production" :=
  environment_detection_from_api_key "test_test-key" "live_test-key"
    "unknown_test-key" (by decide) (by decide) (by decide)

/-- C6: a definition whose enabled field is false evaluates to false for
every subject, regardless of its rollout percentage and seed. -/
theorem disabled_overrides_rollout (hash : String → Nat) (k : String)
    (d : FlagDefinition) (subject : Option String) (r : String)
    (h : d.isEnabled = false) :
    decideRollout hash k d subject r = false := by
  simp [decideRollout, h]

/-- Witness for C6: a disabled definition with rollout 100 and seed
"seed123" evaluates to false for a concrete subject. -/
theorem disabled_overrides_rollout_witness :
    decideRollout String.length "disabled-flag"
      ⟨"disabled-flag", false, some "Disabled Flag", some 100, some "seed123"⟩
      (some "user-123") "rnd" = false :=
  disabled_overrides_rollout String.length "disabled-flag"
    ⟨"disabled-flag", false, some "Disabled Flag", some 100, some "seed123"⟩
    (some "user-123") "rnd" rfl

end FlagVault
